import Mathlib

/-!
Verification of the hex-grid ecological simulation (`agents.go` and the
hex/world collaborators described in the specification).

The agent layer (`agents.go`) is embedded directly from the source: each Go
struct with its embedded capability structs becomes a Lean structure whose
fields are the cells the Go pointers alias (a `*bool` shared between `Mortal`
and `EatenByPredator` is one `alive : Bool` field, the `*Hex` goal shared
between `Mobile` and `ScentFollower` is one `goal : Hex` field), and each
pointer-receiver method becomes a function returning the updated structure.
Randomness (`rand.Intn`, `World.Random`, `World.RandomBorder`) is supplied
through oracle arguments.

The `Hex` coordinate type itself (`Distance`, `Closer`) is not part of the
provided source tree; it is modelled from the specification, §4.1.
-/

namespace Sim

/-- A hex-grid coordinate with two integer axes (row, column), compared by
structural equality, as in the source `Hex{r, c}` literals. -/
@[ext]
structure Hex where
  r : Int
  c : Int
deriving DecidableEq, Repr

/-- Modelled from the spec: `Hex.Distance` is missing from the source tree.
§4.1 specifies hex-grid shortest-path distance via axial-coordinate
subtraction with `max(|dr|, |dc|, |dr+dc|)`. -/
def Hex.Distance (a b : Hex) : Nat :=
  max (max (b.r - a.r).natAbs (b.c - a.c).natAbs) ((b.r - a.r) + (b.c - a.c)).natAbs

/-- Modelled from the spec: the six axial direction offsets of the hex grid,
in a fixed, documented enumeration order (§4.1 requires a deterministic
tie-breaking order for `move_toward`). -/
def hexDirections : List (Int × Int) :=
  [(1, 0), (1, -1), (0, -1), (-1, 0), (-1, 1), (0, 1)]

/-- Modelled from the spec: the adjacency-defined neighbors of a cell, one per
direction offset. -/
def Hex.neighbors (a : Hex) : List Hex :=
  hexDirections.map (fun d => ⟨a.r + d.1, a.c + d.2⟩)

/-- Modelled from the spec: `Hex.Closer` (the source method behind
`move_toward`) is missing from the source tree.  §4.1: it moves to the single
neighboring cell that strictly minimizes `distance(·, goal)`, breaking ties by
the fixed neighbor-enumeration order (`List.argmin` keeps the first minimum);
if `self == goal` it is a no-op. -/
def Hex.Closer (a goal : Hex) : Hex :=
  if a = goal then a
  else ((a.neighbors).argmin (fun n => n.Distance goal)).getD a

/-- `Hex.Position` returns the two coordinates, as in the source
`r, c := h.Position()`. -/
def Hex.Position (a : Hex) : Int × Int :=
  (a.r, a.c)

theorem Hex.Distance_self (a : Hex) : a.Distance a = 0 := by
  simp [Hex.Distance]

theorem Hex.Distance_comm (a b : Hex) : a.Distance b = b.Distance a := by
  simp only [Hex.Distance]
  omega

theorem Hex.Distance_eq_zero_iff {a b : Hex} : a.Distance b = 0 ↔ a = b := by
  simp only [Hex.Distance, Hex.ext_iff]
  omega

set_option maxHeartbeats 2000000 in
theorem Hex.Distance_triangle (a b c : Hex) :
    a.Distance c ≤ a.Distance b + b.Distance c := by
  simp only [Hex.Distance]
  omega

set_option maxHeartbeats 2000000 in
theorem Hex.mem_neighbors_iff {a b : Hex} :
    b ∈ a.neighbors ↔
      (b.r - a.r = 1 ∧ b.c - a.c = 0) ∨ (b.r - a.r = 1 ∧ b.c - a.c = -1) ∨
      (b.r - a.r = 0 ∧ b.c - a.c = -1) ∨ (b.r - a.r = -1 ∧ b.c - a.c = 0) ∨
      (b.r - a.r = -1 ∧ b.c - a.c = 1) ∨ (b.r - a.r = 0 ∧ b.c - a.c = 1) := by
  simp only [Hex.neighbors, hexDirections, List.map_cons, List.map_nil,
    List.mem_cons, List.not_mem_nil, or_false, Hex.ext_iff]
  omega

set_option maxHeartbeats 2000000 in
theorem Hex.Distance_eq_one_iff_neighbor {a b : Hex} :
    a.Distance b = 1 ↔ b ∈ a.neighbors := by
  rw [Hex.mem_neighbors_iff]
  simp only [Hex.Distance]
  omega

theorem Hex.Distance_neighbor {a b : Hex} (h : b ∈ a.neighbors) :
    a.Distance b = 1 :=
  Hex.Distance_eq_one_iff_neighbor.mpr h

set_option maxHeartbeats 2000000 in
/-- Among the six neighbors of a cell distinct from the goal, some neighbor is
strictly closer (by exactly one) to the goal. -/
theorem Hex.exists_closer_neighbor {a goal : Hex} (h : a ≠ goal) :
    ∃ b ∈ a.neighbors, b.Distance goal + 1 = a.Distance goal := by
  have hne : ¬(goal.r - a.r = 0 ∧ goal.c - a.c = 0) := by
    intro hc
    exact h (Hex.ext_iff.mpr (by omega))
  have key :
      (Hex.Distance ⟨a.r + 1, a.c⟩ goal + 1 = a.Distance goal) ∨
      (Hex.Distance ⟨a.r + 1, a.c - 1⟩ goal + 1 = a.Distance goal) ∨
      (Hex.Distance ⟨a.r, a.c - 1⟩ goal + 1 = a.Distance goal) ∨
      (Hex.Distance ⟨a.r - 1, a.c⟩ goal + 1 = a.Distance goal) ∨
      (Hex.Distance ⟨a.r - 1, a.c + 1⟩ goal + 1 = a.Distance goal) ∨
      (Hex.Distance ⟨a.r, a.c + 1⟩ goal + 1 = a.Distance goal) := by
    simp only [Hex.Distance]
    omega
  have hmem : ∀ d ∈ hexDirections, (⟨a.r + d.1, a.c + d.2⟩ : Hex) ∈ a.neighbors := by
    intro d hd
    exact List.mem_map.mpr ⟨d, hd, rfl⟩
  rcases key with hk | hk | hk | hk | hk | hk
  · exact ⟨⟨a.r + 1, a.c⟩, by
      simpa using hmem (1, 0) (by simp [hexDirections]), hk⟩
  · exact ⟨⟨a.r + 1, a.c - 1⟩, by
      simpa using hmem (1, -1) (by simp [hexDirections]), hk⟩
  · exact ⟨⟨a.r, a.c - 1⟩, by
      simpa using hmem (0, -1) (by simp [hexDirections]), hk⟩
  · exact ⟨⟨a.r - 1, a.c⟩, by
      simpa using hmem (-1, 0) (by simp [hexDirections]), hk⟩
  · exact ⟨⟨a.r - 1, a.c + 1⟩, by
      simpa using hmem (-1, 1) (by simp [hexDirections]), hk⟩
  · exact ⟨⟨a.r, a.c + 1⟩, by
      simpa using hmem (0, 1) (by simp [hexDirections]), hk⟩

theorem Hex.Closer_self (a : Hex) : a.Closer a = a := by
  simp [Hex.Closer]

/-- One `Closer` step from a cell distinct from the goal lands on a neighbor
that is exactly one unit closer to the goal. -/
theorem Hex.Closer_step {a goal : Hex} (h : a ≠ goal) :
    (a.Closer goal).Distance goal + 1 = a.Distance goal := by
  obtain ⟨b0, hb0mem, hb0⟩ := Hex.exists_closer_neighbor h
  have hnonnil : a.neighbors ≠ [] := by
    intro hnil
    rw [hnil] at hb0mem
    exact List.not_mem_nil b0 hb0mem
  obtain ⟨m, hm⟩ : ∃ m, (a.neighbors).argmin (fun n => n.Distance goal) = some m := by
    cases hargmin : (a.neighbors).argmin (fun n => n.Distance goal) with
    | none => exact absurd (List.argmin_eq_none.mp hargmin) hnonnil
    | some m => exact ⟨m, rfl⟩
  have hcloser : a.Closer goal = m := by
    simp [Hex.Closer, h, hm]
  have hmmem : m ∈ a.neighbors := List.argmin_mem hm
  have hmin : m.Distance goal ≤ b0.Distance goal :=
    List.le_of_mem_argmin hb0mem hm
  have htri : a.Distance goal ≤ a.Distance m + m.Distance goal :=
    Hex.Distance_triangle a m goal
  have hone : a.Distance m = 1 := Hex.Distance_neighbor hmmem
  rw [hcloser]
  omega

/-- `Closer` never increases the distance to the goal. -/
theorem Hex.Closer_distance_le (a goal : Hex) :
    (a.Closer goal).Distance goal ≤ a.Distance goal := by
  by_cases h : a = goal
  · subst h
    rw [Hex.Closer_self]
  · have := Hex.Closer_step h
    omega

/-- Iterating `Closer`: the position after `n` single steps toward the goal. -/
def Hex.walk (goal : Hex) : Nat → Hex → Hex
  | 0, a => a
  | n + 1, a => Hex.walk goal n (a.Closer goal)

/-- After `k ≤ distance` steps, the remaining distance is exactly
`distance - k`. -/
theorem Hex.walk_distance (goal : Hex) :
    ∀ (k : Nat) (a : Hex), k ≤ a.Distance goal →
      (Hex.walk goal k a).Distance goal = a.Distance goal - k := by
  intro k
  induction k with
  | zero => intro a _; simp [Hex.walk]
  | succ n ih =>
    intro a hk
    have hne : a ≠ goal := by
      intro heq
      subst heq
      rw [Hex.Distance_self] at hk
      omega
    have hstep := Hex.Closer_step hne
    have := ih (a.Closer goal) (by omega)
    simp only [Hex.walk]
    omega

/-!
## Agent layer, embedded from `agents.go`

Go's pointer-shared state is flattened: every `*bool`/`*Hex` cell shared
between embedded capability structs of one agent becomes a single field of
that agent's structure, and every mutating method returns the updated value.
`rand.Intn` draws and the world's `Random`/`RandomBorder` cells are oracle
arguments.
-/

/-- A Predator (`agents.go`): `Mobile` position and goal; `Immortal`,
`NonEmitter`, `NoPredatorAction`, `NoPreyAction` and `ScentFollower` carry no
state of their own (`ScentFollower` aliases the `Mobile` goal). -/
structure Predator where
  pos : Hex
  goal : Hex
deriving DecidableEq, Repr

/-- A Scent (`agents.go`): `Mobile` position and goal, `Mortal` alive flag
(aliased by the `ReachedGoal` closure of `NewScent`), `Emitted` origin. -/
structure Scent where
  pos : Hex
  goal : Hex
  origin : Hex
  alive : Bool
deriving DecidableEq, Repr

/-- A Prey (`agents.go`): `Mobile` position and goal (goal aliased by
`ScentFollower`), `Mortal` alive flag (aliased by `EatenByPredator`). -/
structure Prey where
  pos : Hex
  goal : Hex
  alive : Bool
deriving DecidableEq, Repr

/-- A Food (`agents.go`): `Stationary` position, `Emitter` rate (the `Emit`
closure is `NewScent` at the food's own location), `Mortal` alive flag
(aliased by `EatenByPrey`). -/
structure Food where
  pos : Hex
  rate : Int
  alive : Bool
deriving DecidableEq, Repr

/-- `Emitted.Origin` returns the value of the origin field. -/
def Scent.Origin (s : Scent) : Hex :=
  s.origin

/-- `Mortal.Alive` for a Scent: the value of the (shared) alive flag. -/
def Scent.Alive (s : Scent) : Bool :=
  s.alive

/-- `Immortal.Alive` for a Predator: always true. -/
def Predator.Alive (_ : Predator) : Bool :=
  true

/-- `Mortal.Alive` for a Prey: the value of the (shared) alive flag. -/
def Prey.Alive (p : Prey) : Bool :=
  p.alive

/-- `Mortal.Alive` for a Food: the value of the (shared) alive flag. -/
def Food.Alive (f : Food) : Bool :=
  f.alive

/-- `Mobile.Update` for a Predator: move one `Closer` step toward the goal;
on arrival run `NewPredator`'s `ReachedGoal` closure, `goal.Copy(w.Random())`,
with the random cell given by the oracle `rnd`. -/
def Predator.Update (p : Predator) (rnd : Hex) : Predator :=
  let pos := p.pos.Closer p.goal
  if pos.Position = p.goal.Position then { pos := pos, goal := rnd }
  else { p with pos := pos }

/-- `Mobile.Update` for a Prey: same motion as the Predator, with
`NewPrey`'s re-roll closure on arrival. -/
def Prey.Update (p : Prey) (rnd : Hex) : Prey :=
  let pos := p.pos.Closer p.goal
  if pos.Position = p.goal.Position then { p with pos := pos, goal := rnd }
  else { p with pos := pos }

/-- `Mobile.Update` for a Scent: move one `Closer` step toward the goal; on
arrival run `NewScent`'s `ReachedGoal` closure, `alive = false`. -/
def Scent.Update (s : Scent) : Scent :=
  let pos := s.pos.Closer s.goal
  if pos.Position = s.goal.Position then { s with pos := pos, alive := false }
  else { s with pos := pos }

/-- `Stationary.Update` for a Food: do nothing. -/
def Food.Update (f : Food) : Food :=
  f

/-- `ScentFollower.AcceptScent` for a Predator: overwrite the (shared) goal
with the scent's origin. -/
def Predator.AcceptScent (p : Predator) (s : Scent) : Predator :=
  { p with goal := s.Origin }

/-- `NoPredatorAction.AcceptPredator` for a Predator: do nothing. -/
def Predator.AcceptPredator (p : Predator) (_ : Predator) : Predator :=
  p

/-- `NoPreyAction.AcceptPrey` for a Predator: do nothing. -/
def Predator.AcceptPrey (p : Predator) (_ : Prey) : Predator :=
  p

/-- `ScentFollower.AcceptScent` for a Prey: overwrite the (shared) goal with
the scent's origin. -/
def Prey.AcceptScent (p : Prey) (s : Scent) : Prey :=
  { p with goal := s.Origin }

/-- `EatenByPredator.AcceptPredator` for a Prey: set the (shared) alive flag
to false. -/
def Prey.AcceptPredator (p : Prey) (_ : Predator) : Prey :=
  { p with alive := false }

/-- `NoPreyAction.AcceptPrey` for a Prey: do nothing. -/
def Prey.AcceptPrey (p : Prey) (_ : Prey) : Prey :=
  p

/-- `NoActions` for a Scent: all three reactions do nothing. -/
def Scent.AcceptScent (s : Scent) (_ : Scent) : Scent :=
  s

def Scent.AcceptPredator (s : Scent) (_ : Predator) : Scent :=
  s

def Scent.AcceptPrey (s : Scent) (_ : Prey) : Scent :=
  s

/-- `NoPredatorAction.AcceptPredator` for a Food: do nothing. -/
def Food.AcceptPredator (f : Food) (_ : Predator) : Food :=
  f

/-- `EatenByPrey.AcceptPrey` for a Food: set the (shared) alive flag to
false. -/
def Food.AcceptPrey (f : Food) (_ : Prey) : Food :=
  { f with alive := false }

/-- `NoScentAction.AcceptScent` for a Food: do nothing. -/
def Food.AcceptScent (f : Food) (_ : Scent) : Food :=
  f

/-- `NewPredator` (`agents.go`): a predator at a random location with a random
goal; both random cells are oracle arguments. -/
def NewPredator (pos goal : Hex) : Predator :=
  { pos := pos, goal := goal }

/-- `NewScent` (`agents.go`): starts at the emitting agent's location `pos`
(also recorded as the `Emitted` origin), with a `RandomBorder` goal supplied
by the oracle `goal`, and a fresh alive flag set to true. -/
def NewScent (pos goal : Hex) : Scent :=
  { pos := pos, goal := goal, origin := pos, alive := true }

/-- `NewPrey` (`agents.go`): a prey at a random location with a random goal
and a fresh alive flag set to true. -/
def NewPrey (pos goal : Hex) : Prey :=
  { pos := pos, goal := goal, alive := true }

/-- `NewFood` (`agents.go`): a food at a random location, `Emitter` rate 5,
and a fresh alive flag set to true. -/
def NewFood (pos : Hex) : Food :=
  { pos := pos, rate := 5, alive := true }

/-- `rand.Intn n` from Go's `math/rand`: panics when `n <= 0` (modelled as
`none`), otherwise returns a uniform draw in `[0, n)` (modelled as the oracle
`draw` reduced mod `n`). -/
def randIntn (n : Int) (draw : Nat) : Option Int :=
  if n ≤ 0 then none else some ((draw : Int) % n)

/-- `Emitter.Spawn` for a Food: when `rand.Intn(rate)` is zero, return the
agent built by the `Emit` closure — for `NewFood`, `NewScent(&f)` at the
food's own location (`borderGoal` is the scent's `RandomBorder` oracle) —
otherwise return nil (`none`).  The outer `Option` is the `rand.Intn` panic:
`none` there means `Spawn` fails instead of returning. -/
def Food.Spawn (f : Food) (draw : Nat) (borderGoal : Hex) : Option (Option Scent) :=
  (randIntn f.rate draw).map (fun r => if r = 0 then some (NewScent f.pos borderGoal) else none)

/-- `NonEmitter.Spawn` for a Predator: spawn nothing. -/
def Predator.Spawn (_ : Predator) : Option Scent :=
  none

/-- `NonEmitter.Spawn` for a Prey: spawn nothing. -/
def Prey.Spawn (_ : Prey) : Option Scent :=
  none

/-- `NonEmitter.Spawn` for a Scent: spawn nothing. -/
def Scent.Spawn (_ : Scent) : Option Scent :=
  none

/-- One operation applicable to a Scent: an `Update` tick, one of the three
(no-op) reactions, or a (nil) `Spawn`. -/
inductive ScentOp where
  | update
  | acceptScent (t : Scent)
  | acceptPredator (p : Predator)
  | acceptPrey (q : Prey)
  | spawn
deriving Repr

/-- Apply one operation to a Scent (`Spawn` returns nil and leaves the scent
unchanged). -/
def Scent.applyOp (s : Scent) : ScentOp → Scent
  | .update => s.Update
  | .acceptScent t => s.AcceptScent t
  | .acceptPredator p => s.AcceptPredator p
  | .acceptPrey q => s.AcceptPrey q
  | .spawn => s

/-- Apply a sequence of operations to a Scent, oldest first. -/
def Scent.applyOps (s : Scent) (ops : List ScentOp) : Scent :=
  ops.foldl Scent.applyOp s

/-- One operation applicable to a Predator: an `Update` tick with its re-roll
oracle, one of the three reactions, or a (nil) `Spawn`. -/
inductive PredatorOp where
  | update (rnd : Hex)
  | acceptScent (t : Scent)
  | acceptPredator (p : Predator)
  | acceptPrey (q : Prey)
  | spawn
deriving Repr

/-- Apply one operation to a Predator. -/
def Predator.applyOp (p : Predator) : PredatorOp → Predator
  | .update rnd => p.Update rnd
  | .acceptScent t => p.AcceptScent t
  | .acceptPredator q => p.AcceptPredator q
  | .acceptPrey q => p.AcceptPrey q
  | .spawn => p

/-- Apply a sequence of operations to a Predator, oldest first. -/
def Predator.applyOps (p : Predator) (ops : List PredatorOp) : Predator :=
  ops.foldl Predator.applyOp p

theorem Hex.Position_inj {a b : Hex} : a.Position = b.Position ↔ a = b := by
  simp [Hex.Position, Hex.ext_iff, Prod.ext_iff]

/-- No single Scent operation changes the origin field. -/
theorem Scent.applyOp_origin (s : Scent) (o : ScentOp) :
    (s.applyOp o).origin = s.origin := by
  cases o with
  | update =>
    simp only [Scent.applyOp, Scent.Update]
    split <;> rfl
  | acceptScent t => rfl
  | acceptPredator p => rfl
  | acceptPrey q => rfl
  | spawn => rfl

/-- No sequence of Scent operations changes the origin field. -/
theorem Scent.applyOps_origin (ops : List ScentOp) :
    ∀ s : Scent, (s.applyOps ops).origin = s.origin := by
  induction ops with
  | nil => intro s; rfl
  | cons o rest ih =>
    intro s
    have h1 : s.applyOps (o :: rest) = (s.applyOp o).applyOps rest := rfl
    rw [h1, ih (s.applyOp o), Scent.applyOp_origin]

/-- A dead Scent stays dead under every single operation. -/
theorem Scent.applyOp_alive_false {s : Scent} (h : s.alive = false) (o : ScentOp) :
    (s.applyOp o).alive = false := by
  cases o with
  | update =>
    simp only [Scent.applyOp, Scent.Update]
    split
    · rfl
    · exact h
  | acceptScent t => exact h
  | acceptPredator p => exact h
  | acceptPrey q => exact h
  | spawn => exact h

/-- A dead Scent stays dead under every sequence of operations. -/
theorem Scent.applyOps_alive_false (ops : List ScentOp) :
    ∀ s : Scent, s.alive = false → (s.applyOps ops).alive = false := by
  induction ops with
  | nil => intro s h; exact h
  | cons o rest ih =>
    intro s h
    have h1 : s.applyOps (o :: rest) = (s.applyOp o).applyOps rest := rfl
    rw [h1]
    exact ih (s.applyOp o) (Scent.applyOp_alive_false h o)

/-- When the `Closer` step lands on the goal, `Mobile.Update` fires the
Scent's `ReachedGoal` closure, which clears the alive flag. -/
theorem Scent.Update_alive_of_reach {s : Scent} (h : s.pos.Closer s.goal = s.goal) :
    s.Update.alive = false := by
  simp [Scent.Update, h]

/-- C1: for every pair of Hex coordinates a and b, `Distance` is symmetric,
`Distance a a = 0`, and `Distance a b = 1` exactly when b is one of the six
adjacency-defined neighbors of a. -/
theorem claim_C1 (a b : Hex) :
    a.Distance b = b.Distance a ∧ a.Distance a = 0 ∧
    (a.Distance b = 1 ↔ b ∈ a.neighbors) :=
  ⟨Hex.Distance_comm a b, Hex.Distance_self a, Hex.Distance_eq_one_iff_neighbor⟩

/-- C2: iterating the single-step `Closer` move reaches the goal in exactly
`Distance a goal` steps (it is at the goal after that many steps and not
before), every single step is non-increasing in distance, and the step is a
no-op at the goal. -/
theorem claim_C2 (a goal : Hex) :
    Hex.walk goal (a.Distance goal) a = goal ∧
    (∀ k, k < a.Distance goal → Hex.walk goal k a ≠ goal) ∧
    (∀ b : Hex, (b.Closer goal).Distance goal ≤ b.Distance goal) ∧
    goal.Closer goal = goal := by
  refine ⟨?_, ?_, fun b => Hex.Closer_distance_le b goal, Hex.Closer_self goal⟩
  · have h := Hex.walk_distance goal (a.Distance goal) a (le_refl _)
    have h0 : (Hex.walk goal (a.Distance goal) a).Distance goal = 0 := by omega
    exact Hex.Distance_eq_zero_iff.mp h0
  · intro k hk hgoal
    have h := Hex.walk_distance goal k a (by omega)
    rw [hgoal, Hex.Distance_self] at h
    omega

theorem claim_C2_witness :
    Hex.walk ⟨2, 1⟩ (Hex.Distance ⟨0, 0⟩ ⟨2, 1⟩) ⟨0, 0⟩ = ⟨2, 1⟩ ∧
    1 < Hex.Distance ⟨0, 0⟩ ⟨2, 1⟩ ∧
    Hex.walk ⟨2, 1⟩ 1 ⟨0, 0⟩ ≠ ⟨2, 1⟩ :=
  ⟨(claim_C2 ⟨0, 0⟩ ⟨2, 1⟩).1, by decide,
    (claim_C2 ⟨0, 0⟩ ⟨2, 1⟩).2.1 1 (by decide)⟩

/-- C3: after `AcceptPredator`, a Prey's `Alive` reads false (the reaction
writes the shared alive flag that `Mortal.Alive` reads), and nothing else
about the Prey changes. -/
theorem claim_C3 (p : Prey) (q : Predator) :
    (p.AcceptPredator q).Alive = false ∧
    (p.AcceptPredator q).pos = p.pos ∧ (p.AcceptPredator q).goal = p.goal :=
  ⟨rfl, rfl, rfl⟩

/-- C4: a Scent's `Origin` after any sequence of operations equals its
`Origin` immediately after construction, and `NewScent` fixes the origin to
the emitting agent's location. -/
theorem claim_C4 (s : Scent) (ops : List ScentOp) (pos goal : Hex) :
    (s.applyOps ops).Origin = s.Origin ∧ (NewScent pos goal).Origin = pos :=
  ⟨Scent.applyOps_origin ops s, rfl⟩

/-- C5: when an `Update` brings a Scent's position onto its goal, the
goal-reached reaction fires and `Alive` reads false from then on, under any
further sequence of operations. -/
theorem claim_C5 (s : Scent) (ops : List ScentOp)
    (h : s.pos.Closer s.goal = s.goal) :
    s.Update.Alive = false ∧ (s.Update.applyOps ops).Alive = false := by
  have hdead : s.Update.alive = false := Scent.Update_alive_of_reach h
  exact ⟨hdead, Scent.applyOps_alive_false ops s.Update hdead⟩

theorem claim_C5_witness :
    (NewScent ⟨0, 0⟩ ⟨1, 0⟩).pos.Closer (NewScent ⟨0, 0⟩ ⟨1, 0⟩).goal =
      (NewScent ⟨0, 0⟩ ⟨1, 0⟩).goal ∧
    (NewScent ⟨0, 0⟩ ⟨1, 0⟩).Update.Alive = false ∧
    ((NewScent ⟨0, 0⟩ ⟨1, 0⟩).Update.applyOps [ScentOp.update]).Alive = false :=
  ⟨by decide,
    (claim_C5 (NewScent ⟨0, 0⟩ ⟨1, 0⟩) [ScentOp.update] (by decide)).1,
    (claim_C5 (NewScent ⟨0, 0⟩ ⟨1, 0⟩) [ScentOp.update] (by decide)).2⟩

/-- C6: `AcceptScent` overwrites the movement goal of a Predator or a Prey
with the scent's origin while leaving the position alone, and the next
`Update` then moves one `Closer` step toward that origin — strictly
decreasing the distance to it when the agent is not already there. -/
theorem claim_C6 (p : Predator) (q : Prey) (s : Scent) (rnd : Hex) :
    (p.AcceptScent s).goal = s.Origin ∧ (p.AcceptScent s).pos = p.pos ∧
    ((p.AcceptScent s).Update rnd).pos = p.pos.Closer s.Origin ∧
    (q.AcceptScent s).goal = s.Origin ∧ (q.AcceptScent s).pos = q.pos ∧
    ((q.AcceptScent s).Update rnd).pos = q.pos.Closer s.Origin ∧
    (p.pos ≠ s.Origin →
      (((p.AcceptScent s).Update rnd).pos).Distance s.Origin + 1 =
        p.pos.Distance s.Origin) := by
  have hp : ((p.AcceptScent s).Update rnd).pos = p.pos.Closer s.Origin := by
    simp only [Predator.AcceptScent, Predator.Update]
    split <;> rfl
  have hq : ((q.AcceptScent s).Update rnd).pos = q.pos.Closer s.Origin := by
    simp only [Prey.AcceptScent, Prey.Update]
    split <;> rfl
  refine ⟨rfl, rfl, hp, rfl, rfl, hq, ?_⟩
  intro hne
  rw [hp]
  exact Hex.Closer_step hne

theorem claim_C6_witness :
    ((NewPredator ⟨0, 0⟩ ⟨5, 5⟩).AcceptScent (NewScent ⟨2, 0⟩ ⟨0, 0⟩)).goal =
      (NewScent ⟨2, 0⟩ ⟨0, 0⟩).Origin ∧
    ((((NewPredator ⟨0, 0⟩ ⟨5, 5⟩).AcceptScent
        (NewScent ⟨2, 0⟩ ⟨0, 0⟩)).Update ⟨9, 9⟩).pos).Distance
        (NewScent ⟨2, 0⟩ ⟨0, 0⟩).Origin + 1 =
      (NewPredator ⟨0, 0⟩ ⟨5, 5⟩).pos.Distance (NewScent ⟨2, 0⟩ ⟨0, 0⟩).Origin :=
  ⟨(claim_C6 (NewPredator ⟨0, 0⟩ ⟨5, 5⟩) (NewPrey ⟨0, 0⟩ ⟨5, 5⟩)
      (NewScent ⟨2, 0⟩ ⟨0, 0⟩) ⟨9, 9⟩).1,
    (claim_C6 (NewPredator ⟨0, 0⟩ ⟨5, 5⟩) (NewPrey ⟨0, 0⟩ ⟨5, 5⟩)
      (NewScent ⟨2, 0⟩ ⟨0, 0⟩) ⟨9, 9⟩).2.2.2.2.2.2 (by decide)⟩

/-- C7: a Food built by `NewFood` spawns exactly when the uniform draw in
`[0, 5)` is zero, and the spawned agent is a Scent whose origin and initial
position are the Food's own location; on a nonzero draw it spawns nil. -/
theorem claim_C7 (pos borderGoal : Hex) (draw : Nat) (h : draw < 5) :
    (NewFood pos).Spawn draw borderGoal =
      some (if draw = 0 then some (NewScent pos borderGoal) else none) ∧
    (NewScent pos borderGoal).Origin = pos ∧
    (NewScent pos borderGoal).pos = pos ∧
    ((NewFood pos).Spawn draw borderGoal =
        some (some (NewScent pos borderGoal)) ↔ draw = 0) := by
  have hm : ((draw : Int) % 5 = 0) ↔ draw = 0 := by omega
  have hspawn : (NewFood pos).Spawn draw borderGoal =
      some (if draw = 0 then some (NewScent pos borderGoal) else none) := by
    simp only [Food.Spawn, NewFood, randIntn]
    rw [if_neg (by norm_num), Option.map_some']
    rw [if_congr hm rfl rfl]
  refine ⟨hspawn, rfl, rfl, ?_⟩
  rw [hspawn]
  by_cases h0 : draw = 0
  · simp [h0]
  · simp [h0]

theorem claim_C7_witness :
    (0 < 5 ∧ (NewFood ⟨0, 0⟩).Spawn 0 ⟨1, 1⟩ =
      some (if (0 : Nat) = 0 then some (NewScent ⟨0, 0⟩ ⟨1, 1⟩) else none)) ∧
    (3 < 5 ∧ (NewFood ⟨0, 0⟩).Spawn 3 ⟨1, 1⟩ =
      some (if (3 : Nat) = 0 then some (NewScent ⟨0, 0⟩ ⟨1, 1⟩) else none)) :=
  ⟨⟨by decide, (claim_C7 ⟨0, 0⟩ ⟨1, 1⟩ 0 (by decide)).1⟩,
    ⟨by decide, (claim_C7 ⟨0, 0⟩ ⟨1, 1⟩ 3 (by decide)).1⟩⟩

/-- C8: a Predator is immortal and emits nothing after any sequence of
operations, and `AcceptPredator` / `AcceptPrey` leave its position and goal
untouched. -/
theorem claim_C8 (p : Predator) (ops : List PredatorOp) (q : Predator) (w : Prey) :
    (p.applyOps ops).Alive = true ∧
    (p.applyOps ops).Spawn = none ∧
    (p.AcceptPredator q).pos = p.pos ∧ (p.AcceptPredator q).goal = p.goal ∧
    (p.AcceptPrey w).pos = p.pos ∧ (p.AcceptPrey w).goal = p.goal :=
  ⟨rfl, rfl, rfl, rfl, rfl, rfl⟩

/-- C9: invoking `Spawn` on an emitter with non-positive rate fails fast (the
`rand.Intn` call panics rather than returning); with positive rate — in
particular for every `NewFood`, whose rate is 5 — `Spawn` is total. -/
theorem claim_C9 (f : Food) (draw : Nat) (borderGoal pos : Hex) :
    (f.rate ≤ 0 → f.Spawn draw borderGoal = none) ∧
    (0 < f.rate → ∃ r, f.Spawn draw borderGoal = some r) ∧
    (NewFood pos).rate = 5 ∧
    (∃ r, (NewFood pos).Spawn draw borderGoal = some r) := by
  have htotal : ∀ g : Food, 0 < g.rate → ∃ r, g.Spawn draw borderGoal = some r := by
    intro g hg
    refine ⟨if (draw : Int) % g.rate = 0 then some (NewScent g.pos borderGoal) else none, ?_⟩
    simp only [Food.Spawn, randIntn]
    rw [if_neg (by omega), Option.map_some']
  refine ⟨?_, htotal f, rfl, htotal (NewFood pos) (by norm_num [NewFood])⟩
  intro hle
  simp only [Food.Spawn, randIntn]
  rw [if_pos hle, Option.map_none']

theorem claim_C9_witness :
    ((Food.mk ⟨0, 0⟩ (-1) true).rate ≤ 0 ∧
      (Food.mk ⟨0, 0⟩ (-1) true).Spawn 3 ⟨1, 1⟩ = none) ∧
    (0 < (NewFood ⟨0, 0⟩).rate ∧
      ∃ r, (NewFood ⟨0, 0⟩).Spawn 3 ⟨1, 1⟩ = some r) :=
  ⟨⟨by decide, (claim_C9 (Food.mk ⟨0, 0⟩ (-1) true) 3 ⟨1, 1⟩ ⟨0, 0⟩).1 (by decide)⟩,
    ⟨by decide, (claim_C9 (NewFood ⟨0, 0⟩) 3 ⟨1, 1⟩ ⟨0, 0⟩).2.1 (by decide)⟩⟩

/-- C10: every constructor returns an initially alive agent: `NewFood`,
`NewPrey` and `NewScent` allocate their shared alive flag set to true, and
`NewPredator` is alive via `Immortal`. -/
theorem claim_C10 (pos goal : Hex) :
    (NewFood pos).Alive = true ∧ (NewPrey pos goal).Alive = true ∧
    (NewScent pos goal).Alive = true ∧ (NewPredator pos goal).Alive = true :=
  ⟨rfl, rfl, rfl, rfl⟩

end Sim
